import Mathlib

/-!
Shallow embedding of the Data Insight Agent analysis core
(src/data_insight_agent/analysis.py, ai_schema.py, utils.py).

Conventions:
- Python floats are embedded as exact rationals (ℚ).  Statistics whose value
  involves a square root (standard deviation, correlation coefficients) are
  kept symbolic via the constructor `J.sqrtv a b`, denoting the real number
  a·√b, so every definition stays computable and exact.
- Python dicts are embedded as insertion-ordered association lists; updating
  an existing key replaces its value in place, a fresh key is appended
  (matching CPython dict semantics).
- pandas DataFrames are embedded as a list of column names plus a list of
  rows; a cell is a number, a string, or null (NaN/None).
- Exceptions are embedded with `Except String`; a handler that traps its own
  exceptions is a total function.
-/

deriving instance DecidableEq for Except

namespace DIA

/-- A key of a Python dict appearing in a result payload: either a string
(column names, stat names) or a number (percentiles, row labels). -/
inductive JKey where
  | s (v : String)
  | q (v : ℚ)
deriving DecidableEq, Repr

/-- A JSON-like Python value as produced by the analysis handlers.
`sqrtv a b` denotes the real number a·√b and is used to embed
square-root-valued statistics (std, correlation coefficients) exactly. -/
inductive J where
  | null
  | num (q : ℚ)
  | str (s : String)
  | sqrtv (a b : ℚ)
  | arr (l : List J)
  | obj (l : List (JKey × J))

/-- A cell of a pandas DataFrame: numeric, string, or missing (NaN/None). -/
inductive Value where
  | null
  | num (q : ℚ)
  | str (s : String)
deriving DecidableEq, Repr

/-- A pandas DataFrame: named columns and a list of rows.  Row labels are
modelled positionally (the default RangeIndex). -/
structure DataFrame where
  cols : List String
  rows : List (List Value)
deriving DecidableEq, Repr

/-- Python dict update `d[k] = v`: replace the value of an existing key in
place, else append the new key (CPython insertion order). -/
def dUpdate (d : List (String × J)) (k : String) (v : J) : List (String × J) :=
  if d.any (fun p => p.1 = k) then
    d.map (fun p => if p.1 = k then (k, v) else p)
  else
    d ++ [(k, v)]

/-- Python `d.update(e)`: apply `dUpdate` for each entry of `e` in order. -/
def dUpdateAll (d e : List (String × J)) : List (String × J) :=
  e.foldl (fun acc p => dUpdate acc p.1 p.2) d

/-- Python `d.pop(k, None)`: remove a key if present. -/
def dPop (d : List (String × J)) (k : String) : List (String × J) :=
  d.filter (fun p => p.1 ≠ k)

/-- Lookup in an embedded dict. -/
def dGet (d : List (String × J)) (k : String) : Option J :=
  (d.find? (fun p => p.1 = k)).map (·.2)

/-- The keys of an embedded object value (empty for non-objects). -/
def objKeys : J → List JKey
  | .obj l => l.map (·.1)
  | _ => []

/-- Lookup in an embedded object value. -/
def objGet (j : J) (k : JKey) : Option J :=
  match j with
  | .obj l => (l.find? (fun p => p.1 = k)).map (·.2)
  | _ => none

/-- The cell of a row at a column position; out-of-range reads as missing. -/
def cellAt (r : List Value) (i : Nat) : Value :=
  (r[i]?).getD .null

/-- First index of an element in a list, if present. -/
def idxOf? : List String → String → Option Nat
  | [], _ => none
  | c :: cs, x => if c = x then some 0 else (idxOf? cs x).map (· + 1)

/-- The position of a column name (first occurrence), if present. -/
def colIdx (df : DataFrame) (c : String) : Option Nat :=
  idxOf? df.cols c

/-- The cell of a row under a column name of `df`. -/
def cellOf (df : DataFrame) (r : List Value) (c : String) : Value :=
  match colIdx df c with
  | some i => cellAt r i
  | none => .null

/-- A column as the list of its cells (empty if the name is absent). -/
def column (df : DataFrame) (c : String) : List Value :=
  match colIdx df c with
  | some i => df.rows.map (fun r => cellAt r i)
  | none => []

/-- pandas dtype test: a column has a numeric dtype iff every cell is a
number or missing (a string cell forces object dtype). -/
def isNumericCol (df : DataFrame) (c : String) : Bool :=
  (column df c).all (fun v => match v with | .str _ => false | _ => true)

/-- The names selected by `select_dtypes(include="number")`, in column order. -/
def numericColNames (df : DataFrame) : List String :=
  df.cols.filter (fun c => isNumericCol df c)

/-- The non-null numeric cells of a column, in row order. -/
def numsOf (df : DataFrame) (c : String) : List ℚ :=
  (column df c).filterMap (fun v => match v with | .num q => some q | _ => none)

/-- Sum of a list of rationals. -/
def qsum (l : List ℚ) : ℚ := l.foldr (· + ·) 0

/-- Column mean over non-null cells (pandas skips NaN); 0 on the empty
column, which pandas reports as NaN — callers guard that case. -/
def meanQ (l : List ℚ) : ℚ := qsum l / l.length

/-- Column sample variance with ddof = 1 (pandas default); the division by
`n - 1` yields 0 in ℚ when n ≤ 1, where pandas reports NaN — callers guard
that case. -/
def varQ (l : List ℚ) : ℚ :=
  qsum (l.map (fun x => (x - meanQ l) ^ 2)) / (l.length - 1 : ℚ)

/-! ## The structured instruction (ai_schema.py)

The pydantic models after validation.  The `normalize_empty` validator maps
every falsy payload (None, "", 0, 0.0, False, [], {}) to None before type
checking, so an optional field either is `none` or holds a non-empty,
non-zero value; in particular an explicit `confidence: 0.0` in the payload
validates to `none`, while an *omitted* confidence keeps the declared
default 0.0 (pydantic does not run validators on defaults). -/

/-- `Regression` (ai_schema.py): both columns are required fields, so a
parsed value always carries both. -/
structure Regression where
  col_x : String
  col_y : String
deriving DecidableEq, Repr

/-- One element of the math operation list: a scalar aggregate name, or the
quantile pseudo-operation with its optional percentile list (a single float
is embedded as a one-element list). -/
inductive MathOp where
  | agg (name : String)
  | quantile (percentiles : Option (List ℚ))
deriving DecidableEq, Repr

/-- The `correlation` field: a single method name or a list of names. -/
inductive CorrArg where
  | single (m : String)
  | multi (ms : List String)
deriving DecidableEq, Repr

/-- The `visualization` field: a single chart kind or a list of kinds. -/
inductive VisArg where
  | single (c : String)
  | multi (cs : List String)
deriving DecidableEq, Repr

/-- `Operation` (ai_schema.py) after `normalize_empty`: every field is
either absent or populated and non-empty. -/
structure Operation where
  summary : Option String := none
  math : Option (List MathOp) := none
  correlation : Option CorrArg := none
  regression : Option Regression := none
  anomaly : Option String := none
  visualization : Option VisArg := none
deriving Repr

/-- `AIParsedInstruction` (ai_schema.py) after validation.  `intent` is a
required list field: `normalize_empty` turns `[]` into None, which then
fails the `List` type check, so a validated instruction always has a
non-empty intent list. -/
structure AIParsedInstruction where
  intent : List String
  operations : Option Operation := none
  focus_columns : Option (List String) := none
  group_by : Option (List String) := none
  drop : Option String := none
  fill : Option String := none
  sort : Option (List String) := none
  filters : Option (List (String × Value ⊕ String × List Value)) := none
  analysis_explanation : Option String := none
  confidence : Option ℚ := some 0
deriving Repr

/-! ## The data preparation stages (analysis.py, `Analysis` static methods) -/

/-- pandas elementwise `==`: a missing cell compares unequal to everything,
itself included (NaN == x is always False), and values of different kinds
compare unequal. -/
def pyEq (a b : Value) : Bool :=
  match a, b with
  | .num x, .num y => x = y
  | .str x, .str y => x = y
  | _, _ => false

/-- `Analysis.filter_by`: for each constraint whose key is a column, keep
the rows whose cell equals the scalar under pandas `==` (or is a member of
the list constraint under `isin`, whose hash-based lookup does match
missing against missing).  Constraint entries with unknown keys are
skipped (`continue`). -/
def filter_by (df : DataFrame)
    (filters : List (String × Value ⊕ String × List Value)) : DataFrame :=
  filters.foldl
    (fun acc f =>
      match f with
      | .inl (key, value) =>
          match colIdx acc key with
          | none => acc
          | some i => ⟨acc.cols, acc.rows.filter (fun r => pyEq (cellAt r i) value)⟩
      | .inr (key, values) =>
          match colIdx acc key with
          | none => acc
          | some i => ⟨acc.cols, acc.rows.filter (fun r => cellAt r i ∈ values)⟩)
    df

/-- `Analysis.focus_columns`: project to the requested columns that exist,
in requested order; `cols = []` (falsy) is a no-op. -/
def focus_columns (df : DataFrame) (cols : List String) : DataFrame :=
  if cols.isEmpty then df
  else
    let existing := cols.filter (fun c => c ∈ df.cols)
    ⟨existing, df.rows.map (fun r => existing.map (fun c => cellOf df r c))⟩

/-- Forward fill one column (list of cells top to bottom). -/
def ffillCol (l : List Value) : List Value :=
  (l.foldl
    (fun (st : List Value × Value) v =>
      match v with
      | .null => (st.1 ++ [st.2], st.2)
      | w => (st.1 ++ [w], w))
    ([], .null)).1

/-- Apply a per-column transform to every column of a frame. -/
def mapCols (df : DataFrame) (f : List Value → List Value) : DataFrame :=
  let n := df.cols.length
  let newCols := (List.range n).map (fun i => f (df.rows.map (fun r => cellAt r i)))
  ⟨df.cols, (List.range df.rows.length).map
    (fun j => newCols.map (fun col => (col[j]?).getD .null))⟩

/-- `Analysis.fill`: forward fill, backward fill, or fill missing cells with
the literal string value (the `fill` field is typed `str`). -/
def fill (df : DataFrame) (filling : Option String) : DataFrame :=
  match filling with
  | none => df
  | some f =>
      if f = "ffill" then mapCols df ffillCol
      else if f = "bfill" then mapCols df (fun l => (ffillCol l.reverse).reverse)
      else ⟨df.cols, df.rows.map (fun r =>
        r.map (fun v => match v with | .null => .str f | w => w))⟩

/-- `Analysis.drop`: drop rows with any missing cell, or drop exact
duplicate rows (keeping first occurrences); other strings are a no-op. -/
def drop (df : DataFrame) (action : Option String) : DataFrame :=
  match action with
  | none => df
  | some a =>
      if a = "drop null" then
        ⟨df.cols, df.rows.filter (fun r =>
          decide ((∀ i < df.cols.length, cellAt r i ≠ Value.null)))⟩
      else if a = "drop duplicates" then
        ⟨df.cols, df.rows.eraseDups⟩
      else df

/-! ## Sorting (`Analysis.sorting` over pandas `sort_values`)

`sort_values` is called with the default `kind="quicksort"`, whose tie
order is *unspecified* (pandas documents only mergesort/stable as stable).
The embedding must fix some deterministic order and uses a stable merge
sort; no theorem below depends on where tied rows land.  Missing cells
sort last regardless of direction (`na_position="last"`), and a sort
column of object dtype holding both numbers and strings raises a
`TypeError`, because numbers and strings do not compare in Python 3. -/

/-- Python `str.lower()` on the character list (the direction tokens are
ASCII). -/
def lowerStr (s : String) : String := String.mk (s.data.map Char.toLower)

/-- Three-way comparison in a linear order. -/
def cmp3 {α : Type} [LinearOrder α] (a b : α) : Ordering :=
  if a < b then .lt else if b < a then .gt else .eq

/-- Cell comparison used by the embedded `sort_values`: missing cells sort
last in either direction; numbers and strings compare within their kind,
reversed when `asc` is false.  The cross-kind cases are fixed arbitrarily
(numbers before strings): they are unreachable behind the mixed-column
check, which raises instead. -/
def cmpVal (asc : Bool) : Value → Value → Ordering
  | .null, .null => .eq
  | .null, _ => .gt
  | _, .null => .lt
  | .num a, .num b => if asc then cmp3 a b else cmp3 b a
  | .str a, .str b => if asc then cmp3 a b else cmp3 b a
  | .num _, .str _ => .lt
  | .str _, .num _ => .gt

/-- Lexicographic row comparison over the sort column positions. -/
def rowCmp (asc : Bool) : List Nat → List Value → List Value → Ordering
  | [], _, _ => .eq
  | i :: rest, r1, r2 =>
      match cmpVal asc (cellAt r1 i) (cellAt r2 i) with
      | .eq => rowCmp asc rest r1 r2
      | o => o

/-- The boolean comparator handed to the stable sort. -/
def rowLe (asc : Bool) (idxs : List Nat) (r1 r2 : List Value) : Bool :=
  rowCmp asc idxs r1 r2 ≠ Ordering.gt

/-- A column position holds both a number and a string (object dtype with
unorderable content): sorting on it raises. -/
def mixedAt (df : DataFrame) (i : Nat) : Bool :=
  (df.rows.any (fun r => match cellAt r i with | .num _ => true | _ => false)) &&
  (df.rows.any (fun r => match cellAt r i with | .str _ => true | _ => false))

/-- `Analysis.sorting`: scan the spec tokens left to right — "descending" /
"ascending" (case-insensitive) set the direction, any other token naming an
existing column joins the sort-key list in encounter order; with no column
tokens the frame is returned unchanged.  Sorting a mixed-content column
raises a `TypeError`, surfaced here as `.error`. -/
def sorting (df : DataFrame) (sort_params : Option (List String)) :
    Except String DataFrame :=
  match sort_params with
  | none => .ok df
  | some ps =>
      if ps.isEmpty then .ok df
      else
        let st := ps.foldl
          (fun (st : Bool × List String) param =>
            if lowerStr param = "descending" then (false, st.2)
            else if lowerStr param = "ascending" then (true, st.2)
            else if param ∈ df.cols then (st.1, st.2 ++ [param])
            else st)
          (true, [])
        if st.2.isEmpty then .ok df
        else
          let idxs := st.2.map (fun c => (idxOf? df.cols c).getD df.cols.length)
          if idxs.any (fun i => mixedAt df i) then
            .error "TypeError: cannot compare str and numeric values"
          else
            .ok ⟨df.cols, df.rows.mergeSort (rowLe st.1 idxs)⟩

/-! ## The preparation pipeline (`Analysis.analyse`, the `df.pipe` chain) -/

/-- The five-stage pipeline exactly as composed in `analyse`: focus-columns,
then row-filter, then fill, then drop, then sort, each stage consuming the
previous stage output.  All stages are pure; the only modelled failure mode
is the sort `TypeError`. -/
def prepare (df : DataFrame) (data : AIParsedInstruction) :
    Except String DataFrame :=
  sorting
    (drop
      (fill
        (filter_by (focus_columns df (data.focus_columns.getD []))
          (data.filters.getD []))
        data.fill)
      data.drop)
    data.sort

/-! ## Numeric statistics helpers -/

/-- An object value with string keys. -/
def objS (l : List (String × J)) : J :=
  .obj (l.map (fun p => (JKey.s p.1, p.2)))

/-- A cell as a result value. -/
def valJ : Value → J
  | .null => .null
  | .num q => .num q
  | .str s => .str s

/-- Non-null cells of a list. -/
def nonNull (cells : List Value) : List Value :=
  cells.filter (fun v => v ≠ Value.null)

/-- pandas quantile with the default linear interpolation, over the sorted
non-null values of a column; the empty column yields NaN. -/
def quantileVal (l : List ℚ) (p : ℚ) : J :=
  match l.mergeSort (fun a b => a ≤ b) with
  | [] => .null
  | s =>
      let h : ℚ := (s.length - 1 : ℚ) * p
      let f : ℤ := ⌊h⌋
      let lo := (s[f.toNat]?).getD 0
      let hi := (s[f.toNat + 1]?).getD lo
      .num (lo + (h - (f : ℚ)) * (hi - lo))

/-- The smallest value of maximal multiplicity; pandas `mode` returns every
maximiser, modelled here by a single representative (multi-modal columns
are outside every claim). -/
def modeVal (l : List ℚ) : J :=
  match l with
  | [] => .null
  | x :: xs =>
      .num (xs.foldl (fun b v =>
        if l.count v > l.count b ∨ (l.count v = l.count b ∧ v < b) then v else b) x)

/-- A scalar aggregate over the non-null values of a numeric column,
matching the pandas reductions used by `numeric_df.agg`.  The instruction
schema restricts the name to the nine Math literals. -/
def aggVal (name : String) (l : List ℚ) : J :=
  if name = "sum" then .num (qsum l)
  else if name = "min" then
    match l with | [] => .null | x :: xs => .num (xs.foldl min x)
  else if name = "max" then
    match l with | [] => .null | x :: xs => .num (xs.foldl max x)
  else if name = "mean" then if l.isEmpty then .null else .num (meanQ l)
  else if name = "median" then quantileVal l (1/2)
  else if name = "mode" then modeVal l
  else if name = "count" then .num l.length
  else if name = "std" then
    if l.length ≤ 1 then .null else .sqrtv 1 (varQ l)
  else if name = "var" then
    if l.length ≤ 1 then .null else .num (varQ l)
  else .null

/-- The most frequent non-null cell and its count (first encountered among
the maximisers, as in pandas `value_counts`). -/
def topFreq (cells : List Value) : J × Nat :=
  match nonNull cells with
  | [] => (.null, 0)
  | x :: xs =>
      let nn := x :: xs
      let best := xs.foldl (fun b v => if nn.count v > nn.count b then v else b) x
      (valJ best, nn.count best)

/-- One column of `df.describe(include="all")`: numeric columns report
count / mean / std / min / quartiles / max, the others count / unique /
top / freq.  (pandas pads the union of stat rows with NaN; the padding
rows carry no information and are omitted.) -/
def describeCol (df : DataFrame) (c : String) : J :=
  let cells := column df c
  if isNumericCol df c then
    let l := numsOf df c
    .obj [(.s "count", .num (l.length : ℚ)), (.s "mean", aggVal "mean" l),
          (.s "std", aggVal "std" l), (.s "min", aggVal "min" l),
          (.s "25%", quantileVal l (1/4)), (.s "50%", quantileVal l (1/2)),
          (.s "75%", quantileVal l (3/4)), (.s "max", aggVal "max" l)]
  else
    .obj [(.s "count", .num ((nonNull cells).length : ℚ)),
          (.s "unique", .num ((nonNull cells).eraseDups.length : ℚ)),
          (.s "top", (topFreq cells).1),
          (.s "freq", .num ((topFreq cells).2 : ℚ))]

/-- `df.describe(include="all").to_dict()`: a dict from column name to its
stat dict. -/
def describeEntries (df : DataFrame) : List (String × J) :=
  df.cols.map (fun c => (c, describeCol df c))

/-- `df.describe(include="all")` raises a ValueError on a frame without
columns (reachable after a focus list that matches nothing); otherwise the
stat dict. -/
def describeE (df : DataFrame) : Except String (List (String × J)) :=
  if df.cols.isEmpty then
    .error "ValueError: Cannot describe a DataFrame without columns"
  else .ok (describeEntries df)

/-! ## Handlers (analysis.py).  Each handler takes and returns the error
map (`self.errors`); its first component is the Python return value, with
`none` embedding Python `None`. -/

/-- `Analysis.handle_summary`: the describe dict, merged key-by-key into
the result map by the dispatcher.  The body has no try/except, so the
describe ValueError on a zero-column frame propagates. -/
def handle_summary (df : DataFrame) : Except String (List (String × J)) :=
  describeE df

/-- The quantile payload `numeric_df.quantile(percentiles).to_dict()`: the
quantile frame has the percentiles as index and the numeric columns as
columns, so its dict form maps each *column name* to a dict from
percentile to value. -/
def quantileObjFor (df : DataFrame) (percs : List ℚ) : J :=
  .obj ((numericColNames df).map (fun c =>
    (.s c, .obj (percs.map (fun p => (.q p, quantileVal (numsOf df c) p))))))

/-- `Analysis.handle_math`: split quantile pseudo-operations from scalar
aggregates; a quantile op stores the quantile payload (default percentiles
[0.25, 0.5, 0.75] when absent or empty), the aggregates are evaluated per
numeric column via `numeric_df.agg(ops).to_dict()`, whose keys are the
column names.  An absent op list returns the bare empty dict.  (The
try/except around the body has no realizable failure for schema-valid
operation names, so the embedded handler leaves the error map unchanged.) -/
def handle_math (df : DataFrame) (math_ops : Option (List MathOp))
    (errors : List (String × J)) :
    Option (List (String × J)) × List (String × J) :=
  match math_ops with
  | none => (some [], errors)
  | some l =>
      let step := l.foldl
        (fun (st : List (String × J) × List String) op =>
          match op with
          | .quantile pq =>
              let percs : List ℚ :=
                match pq with
                | none => [1/4, 1/2, 3/4]
                | some [] => [1/4, 1/2, 3/4]
                | some ps => ps
              (dUpdate st.1 "quantile" (quantileObjFor df percs), st.2)
          | .agg name => (st.1, st.2 ++ [name]))
        ([], [])
      let result :=
        if step.2.isEmpty then step.1
        else
          dUpdateAll step.1 ((numericColNames df).map (fun c =>
            (c, J.obj (step.2.map (fun o => (.s o, aggVal o (numsOf df c)))))))
      (some [("math", objS result)], errors)

/-- The pairwise-complete numeric observations of two columns. -/
def pairsOf (df : DataFrame) (c1 c2 : String) : List (ℚ × ℚ) :=
  ((column df c1).zip (column df c2)).filterMap
    (fun p => match p with
      | (.num x, .num y) => some (x, y)
      | _ => none)

/-- Pearson correlation of paired samples, kept exact as
Sxy/√(Sxx·Syy) via `J.sqrtv`; a zero variance yields NaN. -/
def pearsonCell (ps : List (ℚ × ℚ)) : J :=
  let xs := ps.map (·.1)
  let ys := ps.map (·.2)
  let cx := xs.map (fun x => x - meanQ xs)
  let cy := ys.map (fun y => y - meanQ ys)
  let sxy := qsum (cx.zipWith (· * ·) cy)
  let sxx := qsum (cx.map (· ^ 2))
  let syy := qsum (cy.map (· ^ 2))
  if sxx * syy = 0 then .null else .sqrtv (sxy / (sxx * syy)) (sxx * syy)

/-- Average (midrank) ranks of a sample, as used by Spearman. -/
def rankAvg (l : List ℚ) : List ℚ :=
  l.map (fun x =>
    (l.countP (fun y => decide (y < x)) : ℚ) +
    ((l.countP (fun y => decide (y = x)) : ℚ) + 1) / 2)

/-- All unordered index pairs i < j of a list, as element pairs. -/
def upperPairs : List α → List (α × α)
  | [] => []
  | x :: xs => xs.map (fun y => (x, y)) ++ upperPairs xs

/-- The sign of a rational. -/
def sgn (a : ℚ) : ℚ :=
  if 0 < a then 1 else if a < 0 then -1 else 0

/-- Kendall tau-b of paired samples, kept exact as
(P−Q)/√((n0−n1)(n0−n2)) via `J.sqrtv`. -/
def kendallCell (ps : List (ℚ × ℚ)) : J :=
  let pr := upperPairs ps
  let pq := qsum (pr.map (fun z => sgn (z.1.1 - z.2.1) * sgn (z.1.2 - z.2.2)))
  let n0 : ℚ := pr.length
  let n1 : ℚ := pr.countP (fun z => decide (z.1.1 = z.2.1))
  let n2 : ℚ := pr.countP (fun z => decide (z.1.2 = z.2.2))
  if (n0 - n1) * (n0 - n2) = 0 then .null
  else .sqrtv (pq / ((n0 - n1) * (n0 - n2))) ((n0 - n1) * (n0 - n2))

/-- One cell of the correlation matrix for a given method: pearson on the
raw pairs, spearman as pearson on midranks, kendall as tau-b. -/
def corrCell (method : String) (ps : List (ℚ × ℚ)) : J :=
  if method = "spearman" then
    pearsonCell ((rankAvg (ps.map (·.1))).zip (rankAvg (ps.map (·.2))))
  else if method = "kendall" then kendallCell ps
  else pearsonCell ps

/-- `df.corr(numeric_only=True, method=method).to_dict()`: a column-by-
column mapping over the numeric columns to the pairwise coefficient. -/
def corrObj (df : DataFrame) (method : String) : J :=
  let nc := numericColNames df
  .obj (nc.map (fun c1 =>
    (.s c1, .obj (nc.map (fun c2 => (.s c2, corrCell method (pairsOf df c1 c2)))))))

/-- `Analysis.handle_correlation`: the method is the first element when a
list was requested (an empty list raises IndexError, trapped and recorded);
an unknown method name is rejected by pandas, trapped and recorded.  On
failure the handler returns the bare empty dict. -/
def handle_correlation (df : DataFrame) (corr : Option CorrArg)
    (errors : List (String × J)) :
    Option (List (String × J)) × List (String × J) :=
  let methodE : Except String String :=
    match corr with
    | some (.single m) => .ok m
    | some (.multi []) => .error "list index out of range"
    | some (.multi (m :: _)) => .ok m
    | none => .error "method must be one of pearson, kendall, spearman"
  match methodE with
  | .error e =>
      (some [], dUpdate errors "correlation_error"
        (.str ("Correlation analysis failed: " ++ e)))
  | .ok m =>
      if m = "pearson" ∨ m = "kendall" ∨ m = "spearman" then
        (some [("correlation", corrObj df m)], errors)
      else
        (some [], dUpdate errors "correlation_error"
          (.str ("Correlation analysis failed: method must be one of pearson, kendall, spearman")))

/-- The ordinary least-squares line of `np.polyfit(x, y, 1)`. -/
structure FitLine where
  slope : ℚ
  intercept : ℚ
deriving DecidableEq, Repr

/-- The normal return of `simple_linear_regression`: either the in-band
error dict `{"error": ...}` or the fitted line (whose `equation` field is
the symbolic poly1d built from slope and intercept). -/
inductive RegOutcome where
  | errDict (msg : String)
  | fit (f : FitLine)
deriving DecidableEq, Repr

/-- The closed-form least-squares solution of degree-1 `np.polyfit`:
slope = (nΣxy − ΣxΣy)/(nΣx² − (Σx)²), intercept = (Σy − slope·Σx)/n.
The degenerate denominator (constant x) is outside every claim. -/
def polyfit1 (xs ys : List ℚ) : FitLine :=
  let n : ℚ := xs.length
  let sx := qsum xs
  let sy := qsum ys
  let sxy := qsum (xs.zipWith (· * ·) ys)
  let sxx := qsum (xs.map (· ^ 2))
  let slope := (n * sxy - sx * sy) / (n * sxx - sx ^ 2)
  ⟨slope, (sy - slope * sx) / n⟩

/-- `simple_linear_regression` (utils.py): a missing column raises
KeyError; empty columns return the in-band error dict; string or missing
cells make `np.polyfit` raise; otherwise the least-squares fit. -/
def simple_linear_regression (df : DataFrame) (x_col y_col : String) :
    Except String RegOutcome :=
  match colIdx df x_col with
  | none => .error ("KeyError: " ++ x_col)
  | some _ =>
  match colIdx df y_col with
  | none => .error ("KeyError: " ++ y_col)
  | some _ =>
  let xs := column df x_col
  let ys := column df y_col
  if xs.length = 0 ∨ ys.length = 0 then .ok (.errDict "Empty data for regression.")
  else if xs.any (fun v => match v with | .str _ => true | _ => false) ||
          ys.any (fun v => match v with | .str _ => true | _ => false) then
    .error "TypeError: unsupported operand types in polyfit"
  else if xs.any (fun v => v = Value.null) || ys.any (fun v => v = Value.null) then
    .error "LinAlgError: SVD did not converge in Linear Least Squares"
  else
    .ok (.fit (polyfit1
      (xs.filterMap (fun v => match v with | .num q => some q | _ => none))
      (ys.filterMap (fun v => match v with | .num q => some q | _ => none))))

/-- `Analysis.handle_regression`.  The in-band error dict and any raised
exception are recorded under `regression_error` and the empty dict is
returned; on the success path the Python function assigns
`result["regression"]` and then falls off the end of the `try` block with
no further statement, so it returns `None` — the computed fit never
reaches the caller. -/
def handle_regression (df : DataFrame) (regres : Option Regression)
    (errors : List (String × J)) :
    Option (List (String × J)) × List (String × J) :=
  match regres with
  | none => (some [], errors)
  | some r =>
      match simple_linear_regression df r.col_x r.col_y with
      | .ok (.errDict msg) =>
          (some [], dUpdate errors "regression_error" (.str msg))
      | .error e =>
          (some [], dUpdate errors "regression_error"
            (.str ("Regression analysis failed: " ++ e)))
      | .ok (.fit _) => (none, errors)

/-- The mask cell of the z-score frame: the value is kept iff it is
numeric and its standardized score (x − mean)/std exceeds 3 in absolute
value, i.e. (x − mean)² > 9·var with positive sample variance (a zero or
undefined std gives a NaN or zero z-score, never &gt; 3). -/
def maskedCell (df : DataFrame) (c : String) (r : List Value) : Option ℚ :=
  let l := numsOf df c
  match cellOf df r c with
  | .num x =>
      if 0 < varQ l ∧ (x - meanQ l) ^ 2 > 9 * varQ l then some x else none
  | _ => none

/-- `Analysis.handle_anomaly`:
`numeric_df[(z_scores.abs() > 3)]` builds the masked frame (a missing cell
wherever the mask is false), `.dropna()` drops every row that contains a
missing cell, and `.to_dict()` maps each numeric column to the surviving
row-label/value pairs.  The masked frame is embedded as indexed rows of
`Option ℚ` over the numeric columns. -/
def handle_anomaly (df : DataFrame) (errors : List (String × J)) :
    Option (List (String × J)) × List (String × J) :=
  let nc := numericColNames df
  let masked : List (Nat × List (Option ℚ)) :=
    df.rows.enum.map (fun p => (p.1, nc.map (fun c => maskedCell df c p.2)))
  let kept := masked.filter (fun p => p.2.all (fun o => o.isSome))
  let payload := J.obj (nc.enum.map (fun q =>
    (.s q.2, J.obj (kept.map (fun p =>
      (.q (p.1 : ℚ), J.num (((p.2[q.1]?).getD none).getD 0)))))))
  (some [("zscore_anomalies", payload)], errors)

/-! ## Visualization (`Analysis.visualize`, `Analysis.handle_visualization`) -/

/-- The three normal outcomes of `Analysis.visualize`: a trapped error
string, a chart dict `{chart_type: url}`, or Python `None` for a chart
type missing from the handler table.  None of them is reachable: see
`visualize`. -/
inductive VisResult where
  | err (msg : String)
  | chart (j : J)
  | skipped

/-- `Analysis.visualize` (analysis.py 110-200).  Before its `try` block
the method calls `self.ensure_bucket_exists()` (line 112), but no method
of that name is defined anywhere in the repository, so every call raises
an AttributeError that the `try` below it cannot catch and nothing else
traps.  The entire `try` body — the `pd.to_numeric` conversion, the
per-chart column preconditions, rendering and the
`{context_id}/{task_id}/{uuid}.png` upload — is unreachable, so the
embedding raises and models none of it. -/
def visualize (_ctx _task : String) (_idx : Nat) (_df0 : DataFrame)
    (_chart_type : String) : Except String VisResult :=
  .error "AttributeError: Analysis object has no attribute ensure_bucket_exists"

/-- `Analysis.handle_visualization`: normalize to a list of chart kinds,
attempt each chart, collect chart dicts and error strings into
`visual_error` (the empty requested list falls through to `None`).  The
loop body calls `visualize` with no `try`, so the AttributeError raised
there on the first chart propagates to the dispatcher. -/
def handle_visualization (ctx task : String) (df : DataFrame)
    (visuals : Option VisArg) (errors : List (String × J)) :
    Except String (Option (List J) × List (String × J)) :=
  match visuals with
  | none => .ok (none, errors)
  | some v =>
      let chart_types := match v with | .single c => [c] | .multi cs => cs
      if chart_types.isEmpty then .ok (none, errors)
      else do
        let step ← chart_types.enum.foldlM
          (fun (st : List J × List String) p => do
            match ← visualize ctx task p.1 df p.2 with
            | .err m => pure (st.1, st.2 ++ [m])
            | .chart j => pure (st.1 ++ [j], st.2)
            | .skipped => pure st)
          (([], []) : List J × List String)
        let errors1 :=
          if step.2.isEmpty then errors
          else dUpdate errors "visual_error" (.arr (step.2.map (fun m => J.str m)))
        return (some step.1, errors1)

/-! ## The intent dispatcher (`Analysis.analyse`) -/

/-- Python `data.intent == "unknown"` (analysis.py line 286): the left
operand is a list, the right a string; in Python a list never compares
equal to a string, so this test is always false whatever the intent
list holds. -/
def pyIntentEqUnknown (_intent : List String) : Bool := false

/-- Python `data.confidence == 0`: after validation the confidence is
either None (explicit falsy payload, and `None == 0` is false) or a
rational (the un-validated default 0.0, or a non-zero parsed value). -/
def pyConfEqZero (c : Option ℚ) : Bool :=
  match c with
  | none => false
  | some q => q = 0

/-- The entry check of `analyse`:
`not data.intent or (data.intent == "unknown" and data.confidence == 0)`. -/
def skipCheck (data : AIParsedInstruction) : Bool :=
  data.intent.isEmpty ||
    (pyIntentEqUnknown data.intent && pyConfEqZero data.confidence)

/-- A non-None handler result: a dict to merge into the result map, or the
chart list of the visualization handler. -/
inductive HandlerRes where
  | dict (d : List (String × J))
  | lst (l : List J)

/-- Merge one handler outcome into the accumulated (results, errors) pair:
`if result:` skips None, the empty dict and the empty list; a dict is
merged key-by-key, a list is stored under "visuals generated". -/
def mergeResult (acc : List (String × J) × List (String × J))
    (res : Option HandlerRes × List (String × J)) :
    List (String × J) × List (String × J) :=
  match res.1 with
  | none => (acc.1, res.2)
  | some (.dict []) => (acc.1, res.2)
  | some (.dict d) => (dUpdateAll acc.1 d, res.2)
  | some (.lst []) => (acc.1, res.2)
  | some (.lst l) => (dUpdate acc.1 "visuals generated" (.arr l), res.2)

/-- Dispatch one intent: the guards of the `intent_handlers` lambdas.
An intent outside the handler table (including "unknown") is ignored.
Accessing a field of `data.operations` when the whole operations object is
None raises an AttributeError that nothing catches, embedded as `.error`. -/
def runIntent (ctx task : String) (df : DataFrame) (data : AIParsedInstruction)
    (intent : String) (acc : List (String × J) × List (String × J)) :
    Except String (List (String × J) × List (String × J)) :=
  if intent = "summary" then
    match handle_summary df with
    | .error e => .error e
    | .ok d => .ok (mergeResult acc (some (.dict d), acc.2))
  else if intent = "math" then
    match data.operations with
    | none => .error "AttributeError: operations is None"
    | some ops =>
        match ops.math with
        | none => .ok acc
        | some m =>
            let h := handle_math df (some m) acc.2
            .ok (mergeResult acc (h.1.map .dict, h.2))
  else if intent = "correlation" then
    match data.operations with
    | none => .error "AttributeError: operations is None"
    | some ops =>
        match ops.correlation with
        | none => .ok acc
        | some c =>
            let h := handle_correlation df (some c) acc.2
            .ok (mergeResult acc (h.1.map .dict, h.2))
  else if intent = "regression" then
    match data.operations with
    | none => .error "AttributeError: operations is None"
    | some ops =>
        match ops.regression with
        | none => .ok acc
        | some r =>
            let h := handle_regression df (some r) acc.2
            .ok (mergeResult acc (h.1.map .dict, h.2))
  else if intent = "anomaly" then
    if "anomaly" ∈ data.intent then
      let h := handle_anomaly df acc.2
      .ok (mergeResult acc (h.1.map .dict, h.2))
    else .ok acc
  else if intent = "visualization" then
    match data.operations with
    | none => .error "AttributeError: operations is None"
    | some ops =>
        match ops.visualization with
        | none => .ok acc
        | some v =>
            match handle_visualization ctx task df (some v) acc.2 with
            | .error e => .error e
            | .ok h => .ok (mergeResult acc (h.1.map .lst, h.2))
  else .ok acc

/-- The dispatching and completion phases of `analyse`, applied to the
dataset `dfp` produced (or restored) by the preparation phase. -/
def dispatchFinish (ctx task : String) (dfp : DataFrame)
    (data : AIParsedInstruction) (md : List (String × J))
    (analyses0 errors1 : List (String × J)) :
    Except String (List (String × J) × List (String × J)) := do
  let acc ← data.intent.foldlM
    (fun acc i => runIntent ctx task dfp data i acc) (analyses0, errors1)
  let md2 := dUpdateAll md
    [("processed_columns", .arr (dfp.cols.map (fun c => J.str c))),
     ("num_rows", .num (dfp.rows.length : ℚ)),
     ("confidence", match data.confidence with | none => J.null | some q => .num q),
     ("status", .str "completed")]
  return (dUpdate acc.1 "metadata" (objS md2), acc.2)

/-- `Analysis.analyse`: strip scratch metadata keys, run the entry check
(short-circuiting into the skipped outcome), run the preparation pipeline
reverting to the incoming frame on failure, merge the explanation text,
dispatch every intent in order and attach the completion metadata. -/
def analyse (ctx task : String) (df : DataFrame) (data : AIParsedInstruction)
    (metadata : List (String × J)) (errors0 : List (String × J)) :
    Except String (List (String × J) × List (String × J)) :=
  let md0 := dPop (dPop metadata "original_text_input") "text_instruction"
  let md1 := dUpdate md0 "status" (.str "in_progress")
  if skipCheck data then
    match describeE df with
    | .error e => .error e
    | .ok s =>
        let md2 := dUpdate (dUpdate (dUpdate md1
            "summary" (objS s))
            "message" (.str "Low confidence or unknown intent — default summary only."))
            "status" (.str "skipped")
        .ok ([("metadata", objS md2)], errors0)
  else
    let pe := prepare df data
    let dfp := match pe with | .ok d => d | .error _ => df
    let errors1 := match pe with
      | .ok _ => errors0
      | .error e => dUpdate errors0 "Data Preparation Error" (.str e)
    let analyses0 := match data.analysis_explanation with
      | some t => [("overview of the analysis", J.str t)]
      | none => []
    dispatchFinish ctx task dfp data md1 analyses0 errors1

/-! ## Helper lemmas -/

theorem dGet_dUpdate (d : List (String × J)) (k : String) (v : J) :
    dGet (dUpdate d k v) k = some v := by
  unfold dUpdate
  by_cases h : d.any (fun p => p.1 = k)
  · simp only [h, if_true]
    induction d with
    | nil => simp at h
    | cons p t ih =>
        by_cases hp : p.1 = k
        · simp [dGet, List.find?, hp]
        · have ht : t.any (fun p => p.1 = k) = true := by
            simp only [List.any_cons, Bool.or_eq_true] at h
            rcases h with h | h
            · exact absurd (by simpa using h) hp
            · exact h
          simpa [dGet, List.find?, hp] using ih ht
  · simp only [h, if_false]
    induction d with
    | nil => simp [dGet, List.find?]
    | cons p t ih =>
        have hp : ¬ p.1 = k := by
          intro hk
          simp [List.any_cons, hk] at h
        have ht : ¬ t.any (fun p => p.1 = k) = true := by
          intro hk
          simp [List.any_cons, hk] at h
        simpa [dGet, List.find?, hp] using ih ht

theorem map_enumFrom_eq {α β : Type} (l : List α) (k : Nat) (f : Nat × α → β)
    (g : α → β) (h : ∀ i a, l[i]? = some a → f (k + i, a) = g a) :
    (l.enumFrom k).map f = l.map g := by
  induction l generalizing k with
  | nil => rfl
  | cons a t ih =>
      simp only [List.enumFrom, List.map_cons]
      refine congrArg₂ _ ?_ ?_
      · simpa using h 0 a (by simp)
      · refine ih (k + 1) (fun i b hb => ?_)
        have := h (i + 1) b (by simpa using hb)
        simpa [Nat.add_assoc, Nat.add_comm 1 i] using this

theorem filterOfMap {α β : Type} (l : List α) (f : α → β) (p : β → Bool) :
    (l.map f).filter p = (l.filter (fun a => p (f a))).map f := by
  induction l with
  | nil => rfl
  | cons a t ih => by_cases h : p (f a) <;> simp [h, ih]

/-! ## Concrete frames and instructions used by the theorems -/

/-- A noiseless linear dataset: y = 2x + 1 on x = 1..4. -/
def c4_df : DataFrame :=
  ⟨["x", "y"],
   [[.num 1, .num 3], [.num 2, .num 5], [.num 3, .num 7], [.num 4, .num 9]]⟩

/-- The regression columns exist but hold no rows. -/
def c4_empty : DataFrame := ⟨["x", "y"], []⟩

/-! ## Theorems -/

/-- **C4** — code_bug.  The spec: with non-empty columns the regression
handler returns slope, intercept and the symbolic fit, and with an empty
column it records a "regression" error and yields no result.  The
computation is right — `simple_linear_regression` fits y = 2x + 1 exactly
and the empty case records `regression_error` — but the handler body has no
`return` after `result["regression"] = regression`, so on the success path
it returns Python `None` and the fit never reaches the dispatcher. -/
theorem C4_regression_success_returns_none :
    simple_linear_regression c4_df "x" "y" = .ok (.fit ⟨2, 1⟩) ∧
    handle_regression c4_df (some ⟨"x", "y"⟩) [] = (none, []) ∧
    handle_regression c4_empty (some ⟨"x", "y"⟩) [] =
      (some [], [("regression_error", .str "Empty data for regression.")]) := by
  have h1 : simple_linear_regression c4_df "x" "y" = .ok (.fit ⟨2, 1⟩) := by
    simp [simple_linear_regression, c4_df, polyfit1, qsum, column, colIdx,
      idxOf?, cellAt, FitLine.mk.injEq]
    norm_num
  refine ⟨h1, ?_, ?_⟩
  · simp [handle_regression, h1]
  · simp [handle_regression, simple_linear_regression, c4_empty, column,
      colIdx, idxOf?, dUpdate]

/-- Columns A and B; B equals 2 on the first row only. -/
def c6_df : DataFrame := ⟨["A", "B"], [[.num 1, .num 2], [.num 1, .num 1]]⟩

/-- The constraint B = 2, on a column the focus list ["A"] excludes. -/
def c6_filters : List (String × Value ⊕ String × List Value) :=
  [.inl ("B", .num 2)]

/-- **C6** — confirmed.  The pipeline is definitionally the fixed
composition focus, then filter, then fill, then drop, then sort, each
stage consuming the previous stage output; and the order is observable:
filtering on B = 2 before focusing to ["A"] keeps 1 of 2 rows, while the
pipeline order focuses first, so the constraint on the dropped column B is
skipped (`continue`) and both rows survive. -/
theorem C6_pipeline_order :
    (∀ (df : DataFrame) (data : AIParsedInstruction),
      prepare df data =
        sorting
          (drop
            (fill
              (filter_by (focus_columns df (data.focus_columns.getD []))
                (data.filters.getD []))
              data.fill)
            data.drop)
          data.sort) ∧
    (focus_columns (filter_by c6_df c6_filters) ["A"]).rows.length = 1 ∧
    (filter_by (focus_columns c6_df ["A"]) c6_filters).rows.length = 2 ∧
    filter_by (focus_columns c6_df ["A"]) c6_filters = focus_columns c6_df ["A"] := by
  refine ⟨fun df data => rfl, ?_, ?_, ?_⟩
  · simp [focus_columns, filter_by, pyEq, c6_df, c6_filters, colIdx, idxOf?,
      cellAt, cellOf]
  · simp [focus_columns, filter_by, pyEq, c6_df, c6_filters, colIdx, idxOf?,
      cellAt, cellOf]
  · simp [focus_columns, filter_by, pyEq, c6_df, c6_filters, colIdx, idxOf?,
      cellAt, cellOf]

/-- **C9** — confirmed.  With a list of correlation methods the handler
uses the first element; in particular ["spearman", "pearson"] computes the
spearman matrix, which is the column-by-column mapping `corrObj` over the
numeric columns. -/
theorem C9_correlation_first_method (df : DataFrame) (m : String)
    (ms : List String) (e : List (String × J)) :
    handle_correlation df (some (.multi (m :: ms))) e =
      handle_correlation df (some (.single m)) e ∧
    handle_correlation df (some (.multi ["spearman", "pearson"])) e =
      (some [("correlation", corrObj df "spearman")], e) ∧
    objKeys (corrObj df "spearman") = (numericColNames df).map JKey.s := by
  refine ⟨rfl, ?_, ?_⟩
  · simp [handle_correlation]
  · simp [corrObj, objKeys]

/-- **C10** — confirmed.  At the dispatching phase, a math, correlation or
visualization intent whose operations field was normalized to None invokes
no handler and leaves both the result map and the error map untouched, and
the regression intent runs its handler exactly when the regression field
holds a populated Regression object (its two columns are required model
fields). -/
theorem C10_parameterless_intents (ctx task : String) (df : DataFrame)
    (data : AIParsedInstruction) (ops : Operation)
    (acc : List (String × J) × List (String × J))
    (hops : data.operations = some ops) :
    (ops.math = none → runIntent ctx task df data "math" acc = .ok acc) ∧
    (ops.correlation = none →
      runIntent ctx task df data "correlation" acc = .ok acc) ∧
    (ops.visualization = none →
      runIntent ctx task df data "visualization" acc = .ok acc) ∧
    (ops.regression = none →
      runIntent ctx task df data "regression" acc = .ok acc) ∧
    (∀ r, ops.regression = some r →
      runIntent ctx task df data "regression" acc =
        .ok (mergeResult acc
          ((handle_regression df (some r) acc.2).1.map .dict,
           (handle_regression df (some r) acc.2).2))) := by
  refine ⟨?_, ?_, ?_, ?_, ?_⟩
  · intro h; simp [runIntent, hops, h]
  · intro h; simp [runIntent, hops, h]
  · intro h; simp [runIntent, hops, h]
  · intro h; simp [runIntent, hops, h]
  · intro r h; simp [runIntent, hops, h]

/-- Witness for C10 at a concrete dispatch state: an operations object
with every field absent makes the math intent a no-op. -/
def c10_data : AIParsedInstruction :=
  { intent := ["math"], operations := some {} }

theorem C10_parameterless_intents_witness :
    runIntent "c" "t" ⟨["a"], []⟩ c10_data "math" ([], []) = .ok ([], []) :=
  (C10_parameterless_intents "c" "t" ⟨["a"], []⟩ c10_data {} ([], []) rfl).1 rfl

/-- A plain numeric single-column frame. -/
def c1_df : DataFrame := ⟨["a"], [[.num 1], [.num 2]]⟩

/-- intent = ["unknown"], confidence = 0.0: the explicit falsy confidence
is normalized to None by the schema validator. -/
def c1_data : AIParsedInstruction := { intent := ["unknown"], confidence := none }

/-- **C1** — code_bug.  The spec: intent = ["unknown"] with confidence 0.0
must short-circuit to status "skipped" with a full summary as the sole
result.  The entry check reads
`not data.intent or (data.intent == "unknown" and data.confidence == 0)`;
`data.intent` is a list, so the comparison with the string "unknown" is
always false (and an explicit confidence 0.0 is normalized to None, which
also compares unequal to 0), hence the skip path never fires: the outcome
carries status "completed", no summary, and no error. -/
theorem C1_unknown_intent_completes :
    analyse "ctx" "task" c1_df c1_data [] [] =
      .ok ([("metadata", objS
        [("status", .str "completed"),
         ("processed_columns", .arr [.str "a"]),
         ("num_rows", .num 2),
         ("confidence", J.null)])], []) := by
  simp [analyse, skipCheck, pyIntentEqUnknown, pyConfEqZero, c1_data, c1_df,
    dPop, dUpdate, dUpdateAll, prepare, sorting, drop, fill, filter_by,
    focus_columns, dispatchFinish, runIntent, mergeResult, objS]

/-- A column mixing a number and a string: sorting it raises TypeError. -/
def c3_df : DataFrame := ⟨["m"], [[.num 1], [.str "a"]]⟩

/-- A summary request that sorts on the mixed column, making the
preparation pipeline raise in its sort stage. -/
def c3_data : AIParsedInstruction := { intent := ["summary"], sort := some ["m"] }

/-- **C3** — confirmed.  When the preparation pipeline raises, `analyse`
records the failure under the data-preparation key and hands the
*pre-pipeline* frame `df` to the dispatching phase: no partially
transformed frame exists (each stage is a pure value-to-value function
and the rebinding of `df` never happened), and the caller frame is the
unchanged `df` itself. -/
theorem C3_preparation_failure_reverts (ctx task : String) (df : DataFrame)
    (data : AIParsedInstruction) (metadata errors0 : List (String × J))
    (msg : String) (hskip : skipCheck data = false)
    (hprep : prepare df data = .error msg) :
    analyse ctx task df data metadata errors0 =
      dispatchFinish ctx task df data
        (dUpdate (dPop (dPop metadata "original_text_input") "text_instruction")
          "status" (.str "in_progress"))
        (match data.analysis_explanation with
          | some t => [("overview of the analysis", J.str t)]
          | none => [])
        (dUpdate errors0 "Data Preparation Error" (.str msg)) ∧
    dGet (dUpdate errors0 "Data Preparation Error" (.str msg))
      "Data Preparation Error" = some (.str msg) := by
  constructor
  · simp [analyse, hskip, hprep]
  · exact dGet_dUpdate errors0 "Data Preparation Error" (.str msg)

theorem C3_preparation_failure_reverts_witness :
    analyse "c" "t" c3_df c3_data [] [] =
      dispatchFinish "c" "t" c3_df c3_data
        (dUpdate (dPop (dPop [] "original_text_input") "text_instruction")
          "status" (.str "in_progress"))
        []
        (dUpdate [] "Data Preparation Error"
          (.str "TypeError: cannot compare str and numeric values")) ∧
    dGet (dUpdate [] "Data Preparation Error"
        (.str "TypeError: cannot compare str and numeric values"))
      "Data Preparation Error" =
        some (.str "TypeError: cannot compare str and numeric values") := by
  have h := C3_preparation_failure_reverts "c" "t" c3_df c3_data [] []
    "TypeError: cannot compare str and numeric values"
    (by simp [skipCheck, c3_data, pyIntentEqUnknown])
    (by decide)
  simpa [c3_data] using h

/-- A single numeric column a = [1, 2, 3]. -/
def c8_df : DataFrame := ⟨["a"], [[.num 1], [.num 2], [.num 3]]⟩

/-- The payload shape asserted by the claim, built from its wording: a
mapping from *percentile* to a mapping from column to value (the
transpose of what the code produces). -/
def quantileSpecShaped (df : DataFrame) (percs : List ℚ) : J :=
  .obj (percs.map (fun p =>
    (.q p, .obj ((numericColNames df).map
      (fun c => (.s c, quantileVal (numsOf df c) p))))))

/-- **C8** — counterexample.  On a = [1, 2, 3] the quantile payload with
default percentiles is keyed by the column name on the outside and by the
percentiles inside — the transpose of the claimed percentile-to-column
mapping — because `DataFrame.to_dict` maps each column to its index
entries. -/
theorem C8_quantile_shape_counterexample :
    (handle_math c8_df (some [.quantile none]) []).1 =
      some [("math", objS [("quantile", quantileObjFor c8_df [1/4, 1/2, 3/4])])] ∧
    quantileObjFor c8_df [1/4, 1/2, 3/4] =
      .obj [(.s "a", .obj [(.q (1/4), .num (3/2)), (.q (1/2), .num 2),
        (.q (3/4), .num (5/2))])] ∧
    quantileObjFor c8_df [1/4, 1/2, 3/4] ≠ quantileSpecShaped c8_df [1/4, 1/2, 3/4] := by
  have hs : ([1, 2, 3] : List ℚ).mergeSort (fun a b => decide (a ≤ b)) = [1, 2, 3] := by
    apply List.mergeSort_of_sorted
    norm_num
  have hn : numsOf c8_df "a" = [1, 2, 3] := by
    simp [numsOf, column, c8_df, colIdx, idxOf?, cellAt]
  have hq1 : quantileVal [1, 2, 3] ((4 : ℚ)⁻¹) = .num (3/2) := by
    simp [quantileVal, hs]
    norm_num [Int.fract]
  have hq2 : quantileVal [1, 2, 3] ((2 : ℚ)⁻¹) = .num 2 := by
    simp [quantileVal, hs]
    norm_num [Int.fract]
  have hq3 : quantileVal [1, 2, 3] (3/4) = .num (5/2) := by
    simp [quantileVal, hs]
    norm_num [Int.fract]
  have hnc : numericColNames c8_df = ["a"] := by
    simp [numericColNames, isNumericCol, column, c8_df, colIdx, idxOf?, cellAt]
  refine ⟨?_, ?_, ?_⟩
  · simp [handle_math, dUpdate]
  · simp [quantileObjFor, hnc, hn, hq1, hq2, hq3]
  · simp [quantileObjFor, quantileSpecShaped, hnc, hn, hq1, hq2, hq3]

/-- **C8 (amended)** — for every dataset, a math request holding a quantile
operation with no percentiles yields the quantile payload at exactly the
default percentiles 0.25, 0.5, 0.75 for every numeric column, shaped as a
mapping from *column* to a mapping from percentile to interpolated value. -/
theorem C8_quantile_default_percentiles (df : DataFrame) (e : List (String × J)) :
    handle_math df (some [.quantile none]) e =
      (some [("math", objS [("quantile", quantileObjFor df [1/4, 1/2, 3/4])])], e) ∧
    quantileObjFor df [1/4, 1/2, 3/4] =
      .obj ((numericColNames df).map (fun c =>
        (.s c, .obj ([1/4, 1/2, (3 : ℚ)/4].map
          (fun p => (.q p, quantileVal (numsOf df c) p)))))) := by
  exact ⟨by simp [handle_math, dUpdate], rfl⟩

/-- A single numeric column, the frame of the claim scenario. -/
def c2_df : DataFrame := ⟨["a"], [[.num 1], [.num 2]]⟩

/-- An instruction requesting the scatter and bar charts of the claim
scenario. -/
def c2_data : AIParsedInstruction :=
  { intent := ["visualization"],
    operations := some { visualization := some (.multi ["scatter", "bar"]) } }

/-- **C2** — code_bug.  The spec: each handler traps its own exceptions,
and a scatter request on a one-numeric-column frame lands in the
`visual_error` list while the sibling bar request still produces its
artifact.  The trapped-error machinery exists in `visualize`, but the
method first calls the undefined `self.ensure_bucket_exists()` outside its
`try`, so every chart request — scatter and bar alike — raises an uncaught
AttributeError that `handle_visualization` (which has no try) and the
dispatcher propagate out of `analyse`: no error entry is recorded and no
artifact is produced. -/
theorem C2_visualization_raises :
    handle_visualization "c" "t" c2_df (some (.multi ["scatter", "bar"])) [] =
      .error "AttributeError: Analysis object has no attribute ensure_bucket_exists" ∧
    analyse "c" "t" c2_df c2_data [] [] =
      .error "AttributeError: Analysis object has no attribute ensure_bucket_exists" := by
  constructor
  · simp [handle_visualization, visualize, List.enum, List.enumFrom,
      List.foldlM, Bind.bind, Except.bind]
  · simp [analyse, skipCheck, pyIntentEqUnknown, c2_data, c2_df, dPop,
      dUpdate, prepare, sorting, drop, fill, filter_by, focus_columns,
      dispatchFinish, runIntent, handle_visualization, visualize, List.enum,
      List.enumFrom, List.foldlM, Bind.bind, Except.bind]

/-- The masked-and-dropped frame of the anomaly handler, characterized
directly: per numeric column, exactly the values of the rows whose every
numeric cell survived its own column mask. -/
theorem handle_anomaly_eq_filter (df : DataFrame) (e : List (String × J)) :
    handle_anomaly df e =
      (some [("zscore_anomalies",
        .obj ((numericColNames df).map (fun c =>
          (.s c, .obj ((df.rows.enum.filter (fun p =>
              (numericColNames df).all
                (fun c2 => (maskedCell df c2 p.2).isSome))).map
            (fun p => (.q (p.1 : ℚ), .num ((maskedCell df c p.2).getD 0))))))))], e) := by
  simp only [handle_anomaly]
  refine congrArg (fun x => (some [("zscore_anomalies", x)], e)) ?_
  show J.obj _ = J.obj _
  refine congrArg J.obj ?_
  show ((numericColNames df).enumFrom 0).map _ = _
  refine map_enumFrom_eq _ 0 _ _ ?_
  intro j c hc
  simp only [Nat.zero_add]
  refine congrArg (fun x => ((JKey.s c, J.obj x) : JKey × J)) ?_
  rw [filterOfMap, List.map_map]
  have hpred : (fun p : Nat × List Value =>
      (((numericColNames df).map (fun c => maskedCell df c p.2)).all
        (fun o => o.isSome))) =
      (fun p : Nat × List Value =>
        (numericColNames df).all (fun c2 => (maskedCell df c2 p.2).isSome)) := by
    funext p
    generalize numericColNames df = nc
    induction nc with
    | nil => rfl
    | cons a t ih => simp only [List.map_cons, List.all_cons, ih]
  rw [hpred]
  refine List.map_congr_left (fun p _ => ?_)
  simp only [Function.comp]
  have hj : (((numericColNames df).map (fun c => maskedCell df c p.2))[j]?) =
      some (maskedCell df c p.2) := by
    rw [List.getElem?_map, hc]
    rfl
  rw [hj]
  rfl

/-- **C5 (amended)** — the anomaly handler retains, per numeric column,
exactly the values of the rows whose *every* numeric cell has an absolute
standardized score above 3: masking the whole numeric frame and then
dropping rows with any missing cell makes retention conjunctive across the
numeric columns (with a single numeric column this reduces to flagging
exactly the &gt; 3σ values of that column). -/
theorem C5_anomaly_row_conjunction (df : DataFrame) (e : List (String × J)) :
    handle_anomaly df e =
      (some [("zscore_anomalies",
        .obj ((numericColNames df).map (fun c =>
          (.s c, .obj ((df.rows.enum.filter (fun p =>
              (numericColNames df).all
                (fun c2 => (maskedCell df c2 p.2).isSome))).map
            (fun p => (.q (p.1 : ℚ), .num ((maskedCell df c p.2).getD 0))))))))], e) :=
  handle_anomaly_eq_filter df e

/-- The heavy column A: ten zeros and one outlier 100 (z = 10/√11 ≈ 3.015),
next to a second numeric column B = 0..10 with no outlier. -/
def c5_df : DataFrame :=
  ⟨["A", "B"],
   [[.num 0, .num 0], [.num 0, .num 1], [.num 0, .num 2], [.num 0, .num 3],
    [.num 0, .num 4], [.num 0, .num 5], [.num 0, .num 6], [.num 0, .num 7],
    [.num 0, .num 8], [.num 0, .num 9], [.num 100, .num 10]]⟩

/-- **C5** — counterexample.  In column A exactly the value 100 has
|z| &gt; 3 (z = 10/√11 &gt; 3 with positive variance), yet the handler flags
nothing: the outlier row holds an ordinary B value, so the post-mask
`dropna()` deletes that row too and both per-column anomaly maps come
back empty — contradicting "exactly that value and no others is flagged,
regardless of how many other numeric columns the dataset has". -/
theorem C5_multicolumn_counterexample :
    c5_df.rows.filter (fun r => (maskedCell c5_df "A" r).isSome) =
      [[.num 100, .num 10]] ∧
    handle_anomaly c5_df [] =
      (some [("zscore_anomalies",
        .obj [(.s "A", .obj []), (.s "B", .obj [])])], []) := by
  have hA : numsOf c5_df "A" = [0, 0, 0, 0, 0, 0, 0, 0, 0, 0, 100] := by
    simp [numsOf, column, c5_df, colIdx, idxOf?, cellAt]
  have hmA : meanQ [0, 0, 0, 0, 0, 0, 0, 0, 0, 0, 100] = 100 / 11 := by
    norm_num [meanQ, qsum]
  have hvA : varQ [0, 0, 0, 0, 0, 0, 0, 0, 0, 0, 100] = 10000 / 11 := by
    norm_num [varQ, qsum, hmA]
  have hB : numsOf c5_df "B" = [0, 1, 2, 3, 4, 5, 6, 7, 8, 9, 10] := by
    simp [numsOf, column, c5_df, colIdx, idxOf?, cellAt]
  have hmB : meanQ [0, 1, 2, 3, 4, 5, 6, 7, 8, 9, 10] = 5 := by
    norm_num [meanQ, qsum]
  have hvB : varQ [0, 1, 2, 3, 4, 5, 6, 7, 8, 9, 10] = 11 := by
    norm_num [varQ, qsum, hmB]
  have hcellA : ∀ r : List Value, cellOf c5_df r "A" = cellAt r 0 := by
    intro r
    simp [cellOf, colIdx, idxOf?, c5_df]
  have hA0 : ∀ r, cellAt r 0 = Value.num 0 → maskedCell c5_df "A" r = none := by
    intro r hr
    simp only [maskedCell, hA, hcellA r, hr, hmA, hvA]
    norm_num
  have hA1 : ∀ r, cellAt r 0 = Value.num 100 →
      maskedCell c5_df "A" r = some 100 := by
    intro r hr
    simp only [maskedCell, hA, hcellA r, hr, hmA, hvA]
    norm_num
  have hB10 : maskedCell c5_df "B" [.num 100, .num 10] = none := by
    have hr : cellOf c5_df [Value.num 100, Value.num 10] "B" = .num 10 := by
      simp [cellOf, colIdx, idxOf?, c5_df, cellAt]
    simp only [maskedCell, hB, hr, hmB, hvB]
    norm_num
  have hrows : c5_df.rows =
      [[Value.num 0, Value.num 0], [Value.num 0, Value.num 1],
       [Value.num 0, Value.num 2], [Value.num 0, Value.num 3],
       [Value.num 0, Value.num 4], [Value.num 0, Value.num 5],
       [Value.num 0, Value.num 6], [Value.num 0, Value.num 7],
       [Value.num 0, Value.num 8], [Value.num 0, Value.num 9],
       [Value.num 100, Value.num 10]] := rfl
  have hnc : numericColNames c5_df = ["A", "B"] := by
    simp [numericColNames, isNumericCol, column, c5_df, colIdx, idxOf?, cellAt]
  constructor
  · rw [hrows]
    simp [List.filter_cons, hA0, hA1, cellAt]
  · rw [handle_anomaly_eq_filter]
    have hfilter : List.filter (fun p : Nat × List Value =>
        (["A", "B"].all (fun c2 => (maskedCell c5_df c2 p.2).isSome)))
          c5_df.rows.enum = [] := by
      rw [show c5_df.rows.enum = c5_df.rows.enumFrom 0 from rfl, hrows]
      simp [List.enumFrom, List.filter_cons, hA0, hA1, hB10, cellAt]
    simp only [hnc, hfilter, List.map_cons, List.map_nil]

end DIA
